import Mathlib

/-!
Verification of the doc-number extraction module (`extract_doc_numbers.py`).

The Python source is shallowly embedded below:
* Python string helpers `str.lower`, `str.strip`, `str.startswith` are
  modelled over the character list of a `String` (`pyLower`, `pyStrip`,
  `pyStartsWith`); the inputs of interest are ASCII, where these agree with
  Python semantics.
* A parsed `xml.etree.ElementTree` element is the inductive `Element`
  (tag, attribute list, text, children).  `ElementTree` queries used by the
  source are embedded by their documented semantics: `find(tag)` returns the
  first direct child with the tag, and `findall(".//tag")` returns every
  proper descendant with the tag in document (pre-order) order, excluding
  the element the query is run on.
* The XML parser itself is external library code, so the top-level function
  takes it as a parameter `parse : String → Except String Element`
  (`Except.error` carries the parser diagnostic of `ET.ParseError`).
* The filesystem is a finite map `FS` from path strings to
  `Except String String`: `Except.ok content` models a readable UTF-8 file,
  `Except.error msg` a path that exists (`Path.exists()`) but whose
  `read_text` raises an exception with message `msg`; an absent entry models
  `Path.exists()` returning false.
* Python `list.sort(key=...)` is a stable sort by the key; it is embedded as
  `List.mergeSort`, which is proved stable in core, keyed on the priority.
-/

/-- Python `str.lower` (ASCII range), as used on attribute values. -/
def pyLower (s : String) : String := ⟨s.data.map Char.toLower⟩

/-- Characters kept by Python `str.strip()`: drop whitespace from both ends. -/
def stripChars (l : List Char) : List Char :=
  ((l.dropWhile Char.isWhitespace).reverse.dropWhile Char.isWhitespace).reverse

/-- Python `str.strip()` with no arguments. -/
def pyStrip (s : String) : String := ⟨stripChars s.data⟩

/-- Python `str.startswith`. -/
def pyStartsWith (s : String) (p : String) : Bool := p.data.isPrefixOf s.data

/-- A parsed XML element, as in `xml.etree.ElementTree`: tag name, attribute
list (well-formed XML has no duplicate attribute names; lookup takes the
first match), the text before the first child (`.text`, `none` when absent),
and the child elements in document order. -/
inductive Element where
  | mk (tag : String) (attrs : List (String × String)) (text : Option String)
      (children : List Element)

def Element.tag : Element → String
  | .mk t _ _ _ => t

def Element.attrs : Element → List (String × String)
  | .mk _ a _ _ => a

def Element.text : Element → Option String
  | .mk _ _ x _ => x

def Element.children : Element → List Element
  | .mk _ _ _ cs => cs

mutual
/-- The element followed by all of its descendants in document
(pre-order, depth-first) order. -/
def Element.preorder : Element → List Element
  | .mk t a x cs => .mk t a x cs :: preorderList cs

/-- Pre-order traversal of a forest of elements. -/
def preorderList : List Element → List Element
  | [] => []
  | c :: cs => c.preorder ++ preorderList cs
end

/-- `elem.findall(".//" + t)`: every proper descendant of `e` whose tag is
`t`, in document order.  (`ElementTree`'s `.//` axis never yields the
element the query is run on.) -/
def Element.findallDesc (e : Element) (t : String) : List Element :=
  (preorderList e.children).filter (fun d => d.tag == t)

/-- `elem.find(t)`: the first direct child of `e` whose tag is `t`. -/
def Element.findChild (e : Element) (t : String) : Option Element :=
  e.children.find? (fun c => c.tag == t)

/-- `elem.get(name, default)`: attribute lookup with a default. -/
def Element.getAttr (e : Element) (name dflt : String) : String :=
  match e.attrs.find? (fun kv => kv.1 == name) with
  | some kv => kv.2
  | none => dflt

/-- `_get_priority` (source lines 45-65): the four-way priority from the
already lower-cased `format` and `load-source` attribute values. -/
def _get_priority (format_attr load_source_attr : String) : Nat :=
  let has_epo := format_attr == "epo"
  let has_patent_office := load_source_attr == "patent-office"
  if has_epo && has_patent_office then 1
  else if has_epo then 2
  else if has_patent_office then 3
  else 4

/-- Lines 107-108 and 118 composed: lower-case the two raw attribute values,
then apply `_get_priority`. -/
def attrPriority (formatRaw loadSourceRaw : String) : Nat :=
  _get_priority (pyLower formatRaw) (pyLower loadSourceRaw)

/-- The priority the loop computes for one `document-id` element: read the
`format` and `load-source` attributes with default `''` (lines 107-108) and
classify (line 118). -/
def elementPriority (e : Element) : Nat :=
  attrPriority (e.getAttr "format" "") (e.getAttr "load-source" "")

/-- Body of the loop at lines 106-119 for one visited element: locate the
`doc-number` child (line 110); skip when it is missing or its text is falsy
(line 111: Python `not text` for `None` or `""`); strip the text (line 114)
and skip when the result is empty (line 115); otherwise produce the
`(priority, doc_number)` entry (lines 118-119). -/
def processDocId (doc_id : Element) : Option (Nat × String) :=
  match doc_id.findChild "doc-number" with
  | none => none
  | some doc_num_elem =>
    match doc_num_elem.text with
    | none => none
    | some s =>
      if s = "" then none
      else
        let doc_number := pyStrip s
        if doc_number = "" then none
        else some (elementPriority doc_id, doc_number)

/-- The `entries` list built by the loop at lines 104-119: one entry per
element of `root.findall('.//document-id')` that survives the skips, in
visit order. -/
def scanEntries (root : Element) : List (Nat × String) :=
  (root.findallDesc "document-id").filterMap processDocId

/-- The comparison realising `key=lambda x: x[0]` of line 122. -/
def entryLE (a b : Nat × String) : Bool := decide (a.1 ≤ b.1)

/-- `entries.sort(key=lambda x: x[0])` (line 122): Python's stable sort on
the priority, embedded as the stable `List.mergeSort`. -/
def sortEntries (entries : List (Nat × String)) : List (Nat × String) :=
  entries.mergeSort entryLE

/-- Lines 104-123: entries of the scanned tree, sorted stably by priority,
with the priorities dropped (line 123). -/
def extractFromRoot (root : Element) : List String :=
  (sortEntries (scanEntries root)).map Prod.snd

/-- The three exception kinds the source can raise: `XMLParsingError`
(line 32), `FileReadError` (line 37), and the bare `ValueError` of line 95. -/
inductive ExtractErr where
  | xmlParsingError (msg : String)
  | fileReadError (msg : String)
  | valueError (msg : String)
deriving DecidableEq

/-- Filesystem model: a finite association of path strings to either
readable content (`Except.ok`) or a read-time exception message
(`Except.error`); absent paths do not exist. -/
abbrev FS := List (String × Except String String)

/-- Lookup of a path in the filesystem model. -/
def fsLookup (fs : FS) (p : String) : Option (Except String String) :=
  (fs.find? (fun q => q.1 == p)).map Prod.snd

/-- The exact message of the `ValueError` raised at line 95. -/
def valueErrorMsg : String :=
  "Input must be either the path to an existing file or an XML string starting with '<'."

/-- Lines 83-95: resolve the input to XML text.  A value whose stripped form
starts with `<` is used as-is; otherwise an existing path is read (wrapping
a read failure in `FileReadError` with the `Failed to read` message of
line 93); otherwise the `ValueError` of line 95 is raised. -/
def resolveInput (fs : FS) (source : String) : Except ExtractErr String :=
  if pyStartsWith (pyStrip source) "<" then Except.ok source
  else
    match fsLookup fs source with
    | some (Except.ok content) => Except.ok content
    | some (Except.error e) =>
        Except.error (ExtractErr.fileReadError ("Failed to read " ++ source ++ ": " ++ e))
    | none => Except.error (ExtractErr.valueError valueErrorMsg)

/-- `extract_doc_numbers` (lines 68-123), with the external XML parser
(`ET.fromstring`, line 99) passed in as `parse`.  A parse failure is wrapped
in `XMLParsingError` with the `Invalid XML:` message of line 101. -/
def extract_doc_numbers (parse : String → Except String Element) (fs : FS)
    (source : String) : Except ExtractErr (List String) :=
  match resolveInput fs source with
  | Except.error e => Except.error e
  | Except.ok xml_content =>
    match parse xml_content with
    | Except.error e => Except.error (ExtractErr.xmlParsingError ("Invalid XML: " ++ e))
    | Except.ok root => Except.ok (extractFromRoot root)

/-- Written from the spec's tier table (§3): two case-insensitive attribute
predicates select one of the four rows. -/
def specTierTable (fmt ls : String) : Nat :=
  if pyLower fmt = "epo" then (if pyLower ls = "patent-office" then 1 else 2)
  else (if pyLower ls = "patent-office" then 3 else 4)

/-- Written from the spec's words for the scanner domain: one record per
element named `document-id` anywhere in the parsed tree (the root element
included), in document pre-order. -/
def scanEntriesAllElems (root : Element) : List (Nat × String) :=
  (root.preorder.filter (fun d => d.tag == "document-id")).filterMap processDocId

/-- A `document-id` element qualifies when its first `doc-number` child has
text with a non-empty strip. -/
def hasValidDocNumber (e : Element) : Bool :=
  match e.findChild "doc-number" with
  | none => false
  | some c => !(pyStrip (c.text.getD "") == "")

/-- Written from the claim's words: the number of qualifying `document-id`
elements anywhere in the tree, the root included. -/
def countQualifyingAll (root : Element) : Nat :=
  (root.preorder.filter (fun d => d.tag == "document-id" && hasValidDocNumber d)).length

/-- The number of qualifying `document-id` elements the code actually
visits: proper descendants of the root. -/
def countQualifying (root : Element) : Nat :=
  ((root.findallDesc "document-id").filter hasValidDocNumber).length

/-- Stub parser that always fails, for concrete instantiations. -/
def parseFail : String → Except String Element := fun _ => Except.error "parse failure"

/-- Stub parser that always returns an empty `root` element, for concrete
instantiations. -/
def parseEmptyRoot : String → Except String Element :=
  fun _ => Except.ok (Element.mk "root" [] none [])

/-! ### Helper lemmas -/

theorem entryLE_trans (a b c : Nat × String) (hab : entryLE a b) (hbc : entryLE b c) :
    entryLE a c := by
  simp only [entryLE, decide_eq_true_eq] at *
  omega

theorem entryLE_total (a b : Nat × String) : entryLE a b || entryLE b a := by
  simp only [entryLE, Bool.or_eq_true, decide_eq_true_eq]
  omega

theorem sortEntries_perm (l : List (Nat × String)) : (sortEntries l).Perm l :=
  List.mergeSort_perm l entryLE

theorem sortEntries_pairwise (l : List (Nat × String)) :
    (sortEntries l).Pairwise (fun a b => a.1 ≤ b.1) := by
  have h := List.sorted_mergeSort entryLE_trans entryLE_total l
  exact h.imp (by simp only [entryLE, decide_eq_true_eq]; exact fun h => h)

theorem sortEntries_filter_key (l : List (Nat × String)) (t : Nat) :
    (sortEntries l).filter (fun a => a.1 == t) = l.filter (fun a => a.1 == t) := by
  set p : Nat × String → Bool := fun a => a.1 == t with hp
  have hmemp : ∀ a ∈ l.filter p, p a = true := fun a ha => (List.mem_filter.mp ha).2
  have hpair : (l.filter p).Pairwise (fun a b => entryLE a b = true) := by
    apply List.pairwise_of_forall_mem_list
    intro a ha b hb
    have ha' := hmemp a ha
    have hb' := hmemp b hb
    simp only [hp, beq_iff_eq] at ha' hb'
    simp [entryLE, ha', hb']
  have hsub : List.Sublist (l.filter p) (sortEntries l) :=
    List.sublist_mergeSort entryLE_trans entryLE_total hpair (List.filter_sublist l)
  have hsub2 : List.Sublist (l.filter p) ((sortEntries l).filter p) := by
    have h := hsub.filter p
    rwa [List.filter_eq_self.mpr hmemp] at h
  have hlen : ((sortEntries l).filter p).length = (l.filter p).length :=
    ((sortEntries_perm l).filter p).length_eq
  exact (hsub2.eq_of_length hlen.symm).symm

theorem processDocId_isSome (e : Element) :
    (processDocId e).isSome = hasValidDocNumber e := by
  unfold processDocId hasValidDocNumber
  cases hf : e.findChild "doc-number" with
  | none => rfl
  | some c =>
    cases ht : c.text with
    | none => simp [ht, pyStrip, stripChars]
    | some s =>
      by_cases hs : s = ""
      · subst hs
        simp [ht, pyStrip, stripChars]
      · by_cases hstrip : pyStrip s = "" <;> simp [hs, hstrip, ht]

theorem length_filterMap_of_isSome {α β : Type} (f : α → Option β) (p : α → Bool)
    (h : ∀ a, (f a).isSome = p a) (l : List α) :
    (l.filterMap f).length = (l.filter p).length := by
  induction l with
  | nil => rfl
  | cons a l ih =>
    have ha := h a
    cases hf : f a with
    | none =>
      rw [hf] at ha
      simp only [Option.isSome_none] at ha
      simp [List.filterMap_cons, List.filter_cons, hf, ← ha, ih]
    | some b =>
      rw [hf] at ha
      simp only [Option.isSome_some] at ha
      simp [List.filterMap_cons, List.filter_cons, hf, ← ha, ih]

theorem find?_eq_first {α : Type} (p : α → Bool) (pre : List α) (c : α) (post : List α)
    (hpre : ∀ d ∈ pre, p d = false) (hc : p c = true) :
    (pre ++ c :: post).find? p = some c := by
  induction pre with
  | nil => simp [List.find?_cons, hc]
  | cons a pre ih =>
    have ha : p a = false := hpre a (List.mem_cons_self a pre)
    have ih' := ih (fun d hd => hpre d (List.mem_cons_of_mem a hd))
    simpa [List.find?_cons, ha] using ih'

/-! ### Claim theorems -/

/-- C1: for every `document-id` element, the assigned priority is exactly the
spec's four-row tier table evaluated on the lower-cased attribute values;
an absent attribute reads as the empty string, whose lower-casing matches
neither predicate, forcing the non-matching rows. -/
theorem tier_assignment_matches_table (e : Element) :
    elementPriority e = specTierTable (e.getAttr "format" "") (e.getAttr "load-source" "")
    ∧ (∀ name d, e.attrs.find? (fun kv => kv.1 == name) = none → e.getAttr name d = d)
    ∧ (∀ ls, specTierTable "" ls = if pyLower ls = "patent-office" then 3 else 4)
    ∧ (∀ fmt, specTierTable fmt "" = if pyLower fmt = "epo" then 2 else 4) := by
  refine ⟨?_, ?_, ?_, ?_⟩
  · unfold elementPriority attrPriority _get_priority specTierTable
    by_cases h1 : pyLower (e.getAttr "format" "") = "epo" <;>
      by_cases h2 : pyLower (e.getAttr "load-source" "") = "patent-office" <;>
        simp [h1, h2]
  · intro name d h
    unfold Element.getAttr
    rw [h]
  · intro ls
    have h : pyLower "" ≠ "epo" := by decide
    simp [specTierTable, h]
  · intro fmt
    have h : pyLower "" ≠ "patent-office" := by decide
    simp [specTierTable, h]

/-- C1 witness: a concrete element with `format="EPO"` and no `load-source`
is assigned tier 2 via the table, and the absent attribute reads as `""`. -/
theorem tier_assignment_matches_table_witness :
    elementPriority (Element.mk "document-id" [("format", "EPO")] none []) = 2
    ∧ (Element.mk "document-id" [("format", "EPO")] none []).getAttr "load-source" "" = ""
    ∧ specTierTable "" "docdb" = 4 := by
  refine ⟨?_, ?_, ?_⟩
  · rw [(tier_assignment_matches_table (Element.mk "document-id" [("format", "EPO")] none [])).1]
    decide
  · exact (tier_assignment_matches_table
      (Element.mk "document-id" [("format", "EPO")] none [])).2.1 "load-source" "" (by decide)
  · rw [(tier_assignment_matches_table (Element.mk "document-id" [] none [])).2.2.1 "docdb"]
    decide

/-- C2: the returned list is the scanned entries stably sorted by ascending
tier: the output is the sorted entries with tiers discarded, the sorted
entries are pairwise ordered by tier, and each tier's subsequence equals the
document-order subsequence of the scan. -/
theorem output_sorted_stably_by_tier (root : Element) :
    extractFromRoot root = (sortEntries (scanEntries root)).map Prod.snd
    ∧ (sortEntries (scanEntries root)).Pairwise (fun a b => a.1 ≤ b.1)
    ∧ ∀ t, (sortEntries (scanEntries root)).filter (fun a => a.1 == t) =
        (scanEntries root).filter (fun a => a.1 == t) :=
  ⟨rfl, sortEntries_pairwise _, fun t => sortEntries_filter_key _ t⟩

/-- A tree whose root element is itself named `document-id` and carries a
valid `doc-number` child. -/
def c3Root : Element :=
  Element.mk "document-id" [("format", "epo"), ("load-source", "patent-office")] none
    [Element.mk "doc-number" [] (some "123") []]

/-- C3 counterexample: when the root element is itself named `document-id`,
the scan of the code produces nothing, while visiting every `document-id`
element of the tree (as the claim states) would produce a record for the
root. -/
theorem scanner_skips_root_cex :
    scanEntries c3Root = [] ∧ scanEntriesAllElems c3Root = [(1, "123")]
    ∧ scanEntries c3Root ≠ scanEntriesAllElems c3Root :=
  ⟨by decide, by decide, by decide⟩

/-- C3 (amended): the scanner visits exactly the `document-id` elements that
are proper descendants of the root, in document pre-order, producing one
record per qualifying element in that order; whenever the root element is
not itself named `document-id`, this coincides with every `document-id`
element anywhere in the tree. -/
theorem scanner_visits_proper_descendants (root : Element) :
    scanEntries root =
      ((preorderList root.children).filter (fun d => d.tag == "document-id")).filterMap
        processDocId
    ∧ (root.tag ≠ "document-id" → scanEntries root = scanEntriesAllElems root) := by
  constructor
  · rfl
  · intro h
    cases root with
    | mk t a x cs =>
      have ht : ((Element.mk t a x cs).tag == "document-id") = false :=
        beq_eq_false_iff_ne.mpr h
      simp [scanEntriesAllElems, scanEntries, Element.findallDesc, Element.preorder,
        Element.children, List.filter_cons, ht]

/-- A tree with `document-id` elements at different depths under a root that
is not itself a `document-id`. -/
def c3Witness : Element :=
  Element.mk "root" [] none
    [Element.mk "document-id" [] none [Element.mk "doc-number" [] (some "A") []],
     Element.mk "wrap" [] none
       [Element.mk "document-id" [("format", "epo")] none
         [Element.mk "doc-number" [] (some "B") []]]]

/-- C3 witness: on a concrete tree whose root is not a `document-id`, the
scan equals the visit of every `document-id` element in the tree. -/
theorem scanner_visits_proper_descendants_witness :
    scanEntries c3Witness = scanEntriesAllElems c3Witness :=
  (scanner_visits_proper_descendants c3Witness).2 (by decide)

/-- C4: an element yields no record when its first `doc-number` child is
missing or that child's text is absent, empty, or whitespace-only after
trimming; otherwise it yields exactly one record carrying the stripped
text. -/
theorem record_iff_valid_doc_number (e : Element) :
    (e.findChild "doc-number" = none → processDocId e = none)
    ∧ (∀ c, e.findChild "doc-number" = some c → pyStrip (c.text.getD "") = "" →
        processDocId e = none)
    ∧ (∀ c s, e.findChild "doc-number" = some c → c.text = some s → pyStrip s ≠ "" →
        processDocId e = some (elementPriority e, pyStrip s)) := by
  refine ⟨?_, ?_, ?_⟩
  · intro h
    simp [processDocId, h]
  · intro c h hstrip
    cases ht : c.text with
    | none => simp [processDocId, h, ht]
    | some s =>
      rw [ht] at hstrip
      simp only [Option.getD_some] at hstrip
      by_cases hs : s = "" <;> simp [processDocId, h, ht, hs, hstrip]
  · intro c s h ht hne
    have hs : s ≠ "" := by
      intro he
      subst he
      exact hne (by decide)
    simp [processDocId, h, ht, hs, hne]

/-- A `document-id` element whose `doc-number` child text carries
surrounding whitespace. -/
def c4Elem : Element :=
  Element.mk "document-id" [] none [Element.mk "doc-number" [] (some "  999000888 ") []]

/-- C4 witness: the concrete element produces exactly one record with the
stripped value. -/
theorem record_iff_valid_doc_number_witness :
    processDocId c4Elem = some (4, "999000888") :=
  ((record_iff_valid_doc_number c4Elem).2.2
    (Element.mk "doc-number" [] (some "  999000888 ") []) "  999000888 "
    rfl rfl (by decide)).trans (by decide)

/-- C9: only the first direct `doc-number` child (in document order) is
consulted: `find` returns the first matching child, a whitespace-only first
child suppresses the record regardless of later siblings, and any emitted
value comes from the first child's text. -/
theorem first_doc_number_child_only (e : Element) :
    e.findChild "doc-number" = e.children.find? (fun c => c.tag == "doc-number")
    ∧ (∀ pre c post, e.children = pre ++ c :: post →
        (∀ d ∈ pre, d.tag ≠ "doc-number") → c.tag = "doc-number" →
        e.findChild "doc-number" = some c)
    ∧ (∀ c, e.findChild "doc-number" = some c → pyStrip (c.text.getD "") = "" →
        processDocId e = none)
    ∧ (∀ p v, processDocId e = some (p, v) →
        ∃ c s, e.findChild "doc-number" = some c ∧ c.text = some s ∧ v = pyStrip s) := by
  refine ⟨rfl, ?_, ?_, ?_⟩
  · intro pre c post hch hpre hc
    unfold Element.findChild
    rw [hch]
    exact find?_eq_first _ pre c post
      (fun d hd => beq_eq_false_iff_ne.mpr (hpre d hd)) (beq_iff_eq.mpr hc)
  · intro c h hstrip
    cases ht : c.text with
    | none => simp [processDocId, h, ht]
    | some s =>
      rw [ht] at hstrip
      simp only [Option.getD_some] at hstrip
      by_cases hs : s = "" <;> simp [processDocId, h, ht, hs, hstrip]
  · intro p v h
    cases hf : e.findChild "doc-number" with
    | none => simp [processDocId, hf] at h
    | some c =>
      cases ht : c.text with
      | none => simp [processDocId, hf, ht] at h
      | some s =>
        by_cases hs : s = ""
        · simp [processDocId, hf, ht, hs] at h
        · by_cases hstrip : pyStrip s = ""
          · simp [processDocId, hf, ht, hs, hstrip] at h
          · simp [processDocId, hf, ht, hs, hstrip] at h
            exact ⟨c, s, rfl, ht, h.2.symm⟩

/-- A `document-id` element whose first `doc-number` child is
whitespace-only while a later `doc-number` sibling has non-empty text. -/
def c9Elem : Element :=
  Element.mk "document-id" [] none
    [Element.mk "doc-number" [] (some "   ") [],
     Element.mk "doc-number" [] (some "LATER") []]

/-- C9 witness: the concrete element with a whitespace-only first
`doc-number` child produces no record despite the later sibling. -/
theorem first_doc_number_child_only_witness :
    processDocId c9Elem = none :=
  (first_doc_number_child_only c9Elem).2.2.1
    (Element.mk "doc-number" [] (some "   ") []) rfl (by decide)

/-- A tree whose root is itself a `document-id` with a valid `doc-number`:
it qualifies under the claim's count but the code never visits it. -/
def c5Root : Element :=
  Element.mk "document-id" [] none [Element.mk "doc-number" [] (some "777") []]

/-- C5 counterexample: the returned sequence is empty although one
`document-id` element of the tree (the root) has a `doc-number` child with
non-whitespace text. -/
theorem length_counts_qualifying_cex :
    (extractFromRoot c5Root).length = 0 ∧ countQualifyingAll c5Root = 1 := by
  constructor
  · have h : scanEntries c5Root = [] := by decide
    unfold extractFromRoot
    rw [h]
    simp [sortEntries]
  · decide

/-- C5 (amended): the length of the returned sequence equals the number of
`document-id` elements among the root's proper descendants whose first
`doc-number` child has non-whitespace text (duplicates retained); zero
qualifying elements give the empty list, and a successful parse always
returns a value rather than an error. -/
theorem length_counts_qualifying (root : Element) :
    (extractFromRoot root).length = countQualifying root
    ∧ (countQualifying root = 0 → extractFromRoot root = [])
    ∧ (∀ (parse : String → Except String Element) (fs : FS) (src xml : String) (r : Element),
        resolveInput fs src = Except.ok xml → parse xml = Except.ok r →
        extract_doc_numbers parse fs src = Except.ok (extractFromRoot r)) := by
  have hlen : (extractFromRoot root).length = countQualifying root := by
    unfold extractFromRoot
    rw [List.length_map, (sortEntries_perm (scanEntries root)).length_eq]
    unfold scanEntries countQualifying
    exact length_filterMap_of_isSome processDocId hasValidDocNumber processDocId_isSome _
  refine ⟨hlen, ?_, ?_⟩
  · intro h0
    exact List.length_eq_zero.mp (hlen.trans h0)
  · intro parse fs src xml r h1 h2
    simp [extract_doc_numbers, h1, h2]

/-- A tree with one `document-id` that has no `doc-number` child. -/
def c5Witness : Element :=
  Element.mk "root" [] none [Element.mk "document-id" [] none []]

/-- C5 witness: with no qualifying element the result is the empty list, and
a successful parse of literal XML input returns `Except.ok`. -/
theorem length_counts_qualifying_witness :
    extractFromRoot c5Witness = []
    ∧ extract_doc_numbers parseEmptyRoot [] "<root></root>" =
        Except.ok (extractFromRoot (Element.mk "root" [] none [])) :=
  ⟨(length_counts_qualifying c5Witness).2.1 (by decide),
   (length_counts_qualifying c5Witness).2.2 parseEmptyRoot [] "<root></root>" "<root></root>"
     (Element.mk "root" [] none []) rfl rfl⟩

/-- C6 (code behaviour at the failing input): for the input
`nonexistent.xml` with no such file, the code raises the bare `ValueError`
of line 95 — the invalid-input kind, whose fixed message does not mention
the path — and not the file-read error kind the claim (and the repo's own
test `test_nonexistent_file`) expects. -/
theorem nonexistent_path_raises_value_error :
    resolveInput [] "nonexistent.xml" = Except.error (ExtractErr.valueError valueErrorMsg)
    ∧ extract_doc_numbers parseFail [] "nonexistent.xml" =
        Except.error (ExtractErr.valueError valueErrorMsg)
    ∧ (∀ m, extract_doc_numbers parseFail [] "nonexistent.xml" ≠
        Except.error (ExtractErr.fileReadError m)) := by
  have h1 : resolveInput [] "nonexistent.xml" =
      Except.error (ExtractErr.valueError valueErrorMsg) := rfl
  refine ⟨h1, ?_, ?_⟩
  · simp [extract_doc_numbers, h1]
  · intro m
    simp [extract_doc_numbers, h1]

/-- C7: input resolution checks content before path: a value whose stripped
form begins with `<` is returned as-is no matter what the filesystem holds,
and the invalid-input kind (`ValueError`) is raised exactly when the value
neither begins with `<` after stripping nor names an existing path; the
error kinds are distinct variants. -/
theorem resolver_precedence (fs : FS) (src : String) :
    (pyStartsWith (pyStrip src) "<" = true → resolveInput fs src = Except.ok src)
    ∧ ((∃ m, resolveInput fs src = Except.error (ExtractErr.valueError m)) ↔
        (pyStartsWith (pyStrip src) "<" = false ∧ fsLookup fs src = none))
    ∧ (∀ m m', ExtractErr.valueError m ≠ ExtractErr.fileReadError m'
        ∧ ExtractErr.valueError m ≠ ExtractErr.xmlParsingError m') := by
  refine ⟨?_, ⟨?_, ?_⟩, ?_⟩
  · intro h
    simp [resolveInput, h]
  · rintro ⟨m, hm⟩
    by_cases h : pyStartsWith (pyStrip src) "<"
    · simp [resolveInput, h] at hm
    · refine ⟨by simpa using h, ?_⟩
      cases hl : fsLookup fs src with
      | none => rfl
      | some v =>
        cases v with
        | ok content => simp [resolveInput, h, hl] at hm
        | error e => simp [resolveInput, h, hl] at hm
  · rintro ⟨h1, h2⟩
    exact ⟨valueErrorMsg, by simp [resolveInput, h1, h2]⟩
  · intro m m'
    exact ⟨by simp, by simp⟩

/-- Filesystem holding a file whose name itself starts with `<`. -/
def c7FS : FS := [("<file>", Except.ok "IGNORED")]

/-- C7 witness: a value starting with `<` is used as literal content even
though a file of that exact name exists, and a concrete non-path non-XML
value yields the invalid-input kind. -/
theorem resolver_precedence_witness :
    resolveInput c7FS "<file>" = Except.ok "<file>"
    ∧ (∃ m, resolveInput [] "nofile" = Except.error (ExtractErr.valueError m)) :=
  ⟨(resolver_precedence c7FS "<file>").1 (by decide),
   (resolver_precedence [] "nofile").2.1.mpr ⟨by decide, rfl⟩⟩

/-- C8: a parse failure on the resolved XML text raises the parsing-error
kind wrapping the parser diagnostic in the `Invalid XML:` message; a
successful parse raises no error; and a resolver error propagates to the
caller unchanged. -/
theorem parse_error_wrapped (parse : String → Except String Element) (fs : FS) (src : String) :
    (∀ xml msg, resolveInput fs src = Except.ok xml → parse xml = Except.error msg →
        extract_doc_numbers parse fs src =
          Except.error (ExtractErr.xmlParsingError ("Invalid XML: " ++ msg)))
    ∧ (∀ xml root, resolveInput fs src = Except.ok xml → parse xml = Except.ok root →
        extract_doc_numbers parse fs src = Except.ok (extractFromRoot root))
    ∧ (∀ err, resolveInput fs src = Except.error err →
        extract_doc_numbers parse fs src = Except.error err) := by
  refine ⟨?_, ?_, ?_⟩
  · intro xml msg h1 h2
    simp [extract_doc_numbers, h1, h2]
  · intro xml root h1 h2
    simp [extract_doc_numbers, h1, h2]
  · intro err h1
    simp [extract_doc_numbers, h1]

/-- C8 witness: a failing parser on literal XML input yields the wrapped
parsing error, a succeeding parser yields the extracted list, and a
resolver error passes through unchanged. -/
theorem parse_error_wrapped_witness :
    extract_doc_numbers parseFail [] "<a>" =
        Except.error (ExtractErr.xmlParsingError ("Invalid XML: " ++ "parse failure"))
    ∧ extract_doc_numbers parseEmptyRoot [] "<a>" =
        Except.ok (extractFromRoot (Element.mk "root" [] none []))
    ∧ extract_doc_numbers parseFail [] "nofile2" =
        Except.error (ExtractErr.valueError valueErrorMsg) :=
  ⟨(parse_error_wrapped parseFail [] "<a>").1 "<a>" "parse failure" rfl rfl,
   (parse_error_wrapped parseEmptyRoot [] "<a>").2.1 "<a>" (Element.mk "root" [] none []) rfl rfl,
   (parse_error_wrapped parseFail [] "nofile2").2.2 (ExtractErr.valueError valueErrorMsg) rfl⟩

/-- C10: attribute values are lower-cased but never stripped before
comparison: a `format` value equal to `epo` only up to surrounding
whitespace classifies exactly as an absent `format`, and likewise for a
`load-source` value equal to `patent-office` only up to surrounding
whitespace. -/
theorem attributes_not_trimmed (s t ls fm : String)
    (h1 : pyLower (pyStrip s) = "epo") (h2 : pyLower s ≠ "epo")
    (h3 : pyLower (pyStrip t) = "patent-office") (h4 : pyLower t ≠ "patent-office") :
    elementPriority (Element.mk "document-id" [("format", s), ("load-source", ls)] none [])
      = elementPriority (Element.mk "document-id" [("load-source", ls)] none [])
    ∧ elementPriority (Element.mk "document-id" [("format", fm), ("load-source", t)] none [])
      = elementPriority (Element.mk "document-id" [("format", fm)] none []) := by
  have hs2 : (pyLower s == "epo") = false := beq_eq_false_iff_ne.mpr h2
  have ht4 : (pyLower t == "patent-office") = false := beq_eq_false_iff_ne.mpr h4
  have h0e : (pyLower "" == "epo") = false := by decide
  have h0p : (pyLower "" == "patent-office") = false := by decide
  constructor
  · simp [elementPriority, attrPriority, Element.getAttr, Element.attrs, List.find?,
      _get_priority, hs2, h0e]
  · simp [elementPriority, attrPriority, Element.getAttr, Element.attrs, List.find?,
      _get_priority, ht4, h0p]

/-- C10 witness: `format=" epo"` with `load-source="patent-office"`
classifies like an absent `format` (tier 3, not tier 1), and
`load-source=" patent-office"` classifies like an absent `load-source`. -/
theorem attributes_not_trimmed_witness :
    elementPriority
        (Element.mk "document-id" [("format", " epo"), ("load-source", "patent-office")] none [])
      = elementPriority (Element.mk "document-id" [("load-source", "patent-office")] none [])
    ∧ elementPriority
        (Element.mk "document-id" [("format", "epo"), ("load-source", " patent-office")] none [])
      = elementPriority (Element.mk "document-id" [("format", "epo")] none []) :=
  attributes_not_trimmed " epo" " patent-office" "patent-office" "epo"
    (by decide) (by decide) (by decide) (by decide)
